import Mathlib

/-!
Shallow embedding of the iamai on-chain programs (token, governance,
staking, marketplace) and proofs checking the natural-language
specification against them.

Machine integers: `u64` values are `Nat` with explicit bounds checks,
`i64` values are `Int` with explicit bounds checks, `u128` products are
`Nat` with an explicit `2^128` check.  The build profile of the
repository (its `Cargo.toml`) is not part of the sources; following the
spec (overflow-free arithmetic, errors surfaced synchronously, §5
atomicity) and the standard Anchor profile, a checked arithmetic
operation that leaves the machine range aborts the instruction.  Such an
abort is modelled by the `Fail.overflow` outcome below, and a failure of
a token-ledger sub-call (a CPI) by `Fail.cpi`.  Account plumbing
(pubkeys, signers, PDA derivation) and string fields are external
collaborators per §1 of the spec and are not modelled; only the numeric
and status fields that the operations read and write are kept.
-/

/-- 2^64, the number of `u64` values. -/
def U64 : Nat := 18446744073709551616

/-- 2^128, the number of `u128` values. -/
def U128 : Nat := 340282366920938463463374607431768211456

/-- Largest `i64` value. -/
def I64_MAX : Int := 9223372036854775807

/-- Smallest `i64` value. -/
def I64_MIN : Int := -9223372036854775808

/-- Checked `u64` addition: `none` models an arithmetic abort. -/
def u64Add (a b : Nat) : Option Nat :=
  if a + b < U64 then some (a + b) else none

/-- Checked `u64` subtraction: `none` models an arithmetic abort. -/
def u64Sub (a b : Nat) : Option Nat :=
  if b ≤ a then some (a - b) else none

/-- Checked `u64` multiplication: `none` models an arithmetic abort. -/
def u64Mul (a b : Nat) : Option Nat :=
  if a * b < U64 then some (a * b) else none

/-- Checked `u128` multiplication: `none` models an arithmetic abort. -/
def u128Mul (a b : Nat) : Option Nat :=
  if a * b < U128 then some (a * b) else none

/-- Checked `i64` addition: `none` models an arithmetic abort. -/
def i64Add (a b : Int) : Option Int :=
  if I64_MIN ≤ a + b ∧ a + b ≤ I64_MAX then some (a + b) else none

/-- Checked `i64` subtraction: `none` models an arithmetic abort. -/
def i64Sub (a b : Int) : Option Int :=
  if I64_MIN ≤ a - b ∧ a - b ≤ I64_MAX then some (a - b) else none

/-- The Rust `as u128` cast of an `i64` value (two's complement). -/
def i64CastU128 (x : Int) : Nat := (x % (U128 : Int)).toNat

/-- The Rust `as u64` truncating cast of a `u128` value. -/
def u128CastU64 (x : Nat) : Nat := x % U64

/-- Outcome of a failed instruction: a typed program error `err`, an
arithmetic abort `overflow`, or a failed token-ledger sub-call `cpi`. -/
inductive Fail (ε : Type) where
  | err (e : ε)
  | overflow
  | cpi
deriving DecidableEq

deriving instance DecidableEq for Except

/-! ## Token Ledger Manager (src/contracts/token/src/lib.rs) -/

/-- ErrorCode of the token program (src/contracts/token/src/lib.rs,
lines 197-205).  Note that it has no `CirculationUnderflow` variant. -/
inductive TokenError where
  | exceedsMaxSupply
  | notInitialized
  | unauthorized
deriving DecidableEq

/-- TokenInfo record (numeric fields; name, symbol, decimals and the
pubkey fields are not read by any arithmetic path). -/
structure TokenInfo where
  total_supply : Nat
  circulating_supply : Nat
  transfer_fee_basis_points : Nat
deriving DecidableEq

/-- mint_tokens (src/contracts/token/src/lib.rs, lines 31-54).
`mintOk` is the outcome of the `token::mint_to` CPI.  The supply check
`circulating_supply + amount <= total_supply` evaluates the checked
`u64` sum first, then the mutation happens before the CPI; the host
rolls the write back on a CPI failure, so the `Except.error` outcomes
carry no state. -/
def mint_tokens (ti : TokenInfo) (amount : Nat) (mintOk : Bool) :
    Except (Fail TokenError) TokenInfo :=
  match u64Add ti.circulating_supply amount with
  | none => .error .overflow
  | some s =>
    if s ≤ ti.total_supply then
      if mintOk then .ok { ti with circulating_supply := s }
      else .error .cpi
    else .error (.err .exceedsMaxSupply)

/-- burn_tokens (src/contracts/token/src/lib.rs, lines 89-106).
The body is `token_info.circulating_supply -= amount` with no guard:
the only failure for `amount > circulating_supply` is the checked
subtraction's abort.  `burnOk` is the outcome of the `token::burn` CPI. -/
def burn_tokens (ti : TokenInfo) (amount : Nat) (burnOk : Bool) :
    Except (Fail TokenError) TokenInfo :=
  match u64Sub ti.circulating_supply amount with
  | none => .error .overflow
  | some s =>
    if burnOk then .ok { ti with circulating_supply := s }
    else .error .cpi

/-- transfer_with_fee (src/contracts/token/src/lib.rs, lines 56-87).
`fee_amount = (amount * transfer_fee_basis_points as u64) / 10000` is a
plain `u64` product (no 128-bit accumulator), then
`transfer_amount = amount - fee_amount`.  The fee transfer CPI runs only
when `fee_amount > 0`.  The result carries the two amounts moved by the
CPIs (the record state is untouched by this instruction). -/
def transfer_with_fee (ti : TokenInfo) (amount : Nat)
    (feeOk sendOk : Bool) : Except (Fail TokenError) (Nat × Nat) :=
  match u64Mul amount ti.transfer_fee_basis_points with
  | none => .error .overflow
  | some p =>
    let fee_amount := p / 10000
    match u64Sub amount fee_amount with
    | none => .error .overflow
    | some transfer_amount =>
      if fee_amount > 0 && !feeOk then .error .cpi
      else if sendOk then .ok (fee_amount, transfer_amount)
      else .error .cpi

/-- A mint or burn request with the outcome of its ledger CPI. -/
inductive TokenOp where
  | mint (amount : Nat) (ok : Bool)
  | burn (amount : Nat) (ok : Bool)
deriving DecidableEq

/-- One host-level step of the token ledger: a failed instruction leaves
the record unchanged (host transaction rollback, spec §5/§9). -/
def token_step (ti : TokenInfo) : TokenOp → TokenInfo
  | .mint a ok =>
    match mint_tokens ti a ok with
    | .ok t => t
    | .error _ => ti
  | .burn a ok =>
    match burn_tokens ti a ok with
    | .ok t => t
    | .error _ => ti

/-- A sequence of mint/burn requests against the token record. -/
def token_run (ti : TokenInfo) (ops : List TokenOp) : TokenInfo :=
  ops.foldl token_step ti

/-- The TokenInfo created by the token program's init instruction
(src/contracts/token/src/lib.rs, lines 10-29): `circulating_supply = 0`
and `transfer_fee_basis_points = 10`. -/
def init_token (total_supply : Nat) : TokenInfo :=
  { total_supply := total_supply
    circulating_supply := 0
    transfer_fee_basis_points := 10 }

/-! ## Governance Engine (src/iamai-dao/contracts/governance/src/lib.rs) -/

/-- ErrorCode of the governance program (lines 320-338). -/
inductive GovError where
  | insufficientTokensForProposal
  | proposalNotActive
  | votingPeriodEnded
  | insufficientVotingPower
  | alreadyVoted
  | votingPeriodNotEnded
  | proposalNotPassed
  | executionDelayNotMet
deriving DecidableEq

/-- ProposalStatus (lines 312-318). -/
inductive ProposalStatus where
  | active
  | passed
  | rejected
  | executed
deriving DecidableEq

/-- Governance record (numeric fields). -/
structure Governance where
  min_tokens_for_proposal : Nat
  quorum_percentage : Nat
  execution_delay : Int
  proposal_count : Nat
deriving DecidableEq

/-- Proposal record (numeric and status fields; title, description,
proposal type and the pubkey fields are not read by finalize). -/
structure Proposal where
  votes_for : Nat
  votes_against : Nat
  total_votes : Nat
  start_time : Int
  end_time : Int
  execution_time : Int
  status : ProposalStatus
  quorum_reached : Bool
deriving DecidableEq

/-- finalize_proposal (lines 117-149).  The quorum base is the
hardcoded mock constant `1_000_000_000` from line 135 — the
`FinalizeProposal` accounts struct (lines 247-253) does not even
reference a TokenInfo, so no live supply can be read. -/
def finalize_proposal (g : Governance) (p : Proposal) (now : Int) :
    Except (Fail GovError) Proposal :=
  if p.status = ProposalStatus.active then
    if p.end_time < now then
      match u64Mul 1000000000 g.quorum_percentage with
      | none => .error .overflow
      | some prod =>
        let required_quorum := prod / 100
        let qr : Bool := decide (required_quorum ≤ p.total_votes)
        if qr && decide (p.votes_against < p.votes_for) then
          match i64Add now g.execution_delay with
          | none => .error .overflow
          | some et =>
            .ok { p with quorum_reached := qr
                         status := .passed
                         execution_time := et }
        else
          .ok { p with quorum_reached := qr, status := .rejected }
    else .error (.err .votingPeriodNotEnded)
  else .error (.err .proposalNotActive)

/-! ## Staking Engine (src/iamai-dao/contracts/staking/lib.rs) -/

/-- ErrorCode of the staking program (lines 356-366). -/
inductive StakingError where
  | stakeNotActive
  | stakingPeriodNotComplete
  | noRewardsAvailable
  | invalidStakingTier
deriving DecidableEq

/-- StakingPool record (numeric fields). -/
structure StakingPool where
  early_unstake_penalty : Nat
  total_staked : Nat
  total_rewards_distributed : Nat
deriving DecidableEq

/-- StakingTier record (numeric and status fields). -/
structure StakingTier where
  duration_days : Nat
  apy_basis_points : Nat
  total_staked : Nat
  is_active : Bool
deriving DecidableEq

/-- UserStake record (numeric and status fields). -/
structure UserStake where
  amount : Nat
  start_time : Int
  end_time : Int
  rewards_claimed : Nat
  is_active : Bool
deriving DecidableEq

/-- create_staking_tier (lines 25-37): a fresh active tier with zero
stake; no validation of either argument. -/
def create_staking_tier (duration_days apy_basis_points : Nat) :
    StakingTier :=
  { duration_days := duration_days
    apy_basis_points := apy_basis_points
    total_staked := 0
    is_active := true }

/-- stake_tokens (lines 39-77).  No `require!` at all: `tier_index` is
an argument the body never reads and `staking_tier.is_active` is never
consulted.  `end_time = start_time + duration_days as i64 * 86400` with
checked `i64` arithmetic, the pool and tier totals grow by `amount`
(checked `u64` additions), then the user-to-vault transfer CPI runs. -/
def stake_tokens (pool : StakingPool) (tier : StakingTier) (now : Int)
    (amount : Nat) (tier_index : Nat) (transferOk : Bool) :
    Except (Fail StakingError) (StakingPool × StakingTier × UserStake) :=
  if (tier.duration_days * 86400 : Int) ≤ I64_MAX then
    match i64Add now (tier.duration_days * 86400) with
    | none => .error .overflow
    | some end_time =>
      let user_stake : UserStake :=
        { amount := amount
          start_time := now
          end_time := end_time
          rewards_claimed := 0
          is_active := true }
      match u64Add pool.total_staked amount with
      | none => .error .overflow
      | some pt =>
        match u64Add tier.total_staked amount with
        | none => .error .overflow
        | some tt =>
          if transferOk then
            .ok ({ pool with total_staked := pt },
                 { tier with total_staked := tt },
                 user_stake)
          else .error .cpi
  else .error .overflow

/-- calculate_rewards (lines 173-185).
`staking_duration = min(current_time, end_time) - start_time` in `i64`;
the product `amount as u128 * apy_basis_points as u128 *
staking_duration as u128` is a checked `u128` multiplication (a
negative duration casts to a huge two's-complement value); the quotient
is truncated by `as u64` and the claimed rewards are subtracted with a
checked `u64` subtraction. -/
def calculate_rewards (us : UserStake) (t : StakingTier)
    (current_time : Int) : Except (Fail StakingError) Nat :=
  match i64Sub (min current_time us.end_time) us.start_time with
  | none => .error .overflow
  | some staking_duration =>
    match u128Mul (us.amount * t.apy_basis_points)
        (i64CastU128 staking_duration) with
    | none => .error .overflow
    | some p =>
      let rewards := p / (10000 * 31536000)
      match u64Sub (u128CastU64 rewards) us.rewards_claimed with
      | none => .error .overflow
      | some r => .ok r

/-- unstake_tokens (lines 79-133).  Requires an active stake; before
`end_time` it requires the explicit `early_unstake` flag and deducts
`amount * early_unstake_penalty / 10000` (a plain `u64` product) from
the principal; the pending rewards from `calculate_rewards` are always
added on top; the pool and tier totals drop by the original `amount`,
the stake is deactivated, and the vault pays `amount_to_return` out.
The result carries the amount the vault transfer CPI moved. -/
def unstake_tokens (pool : StakingPool) (tier : StakingTier)
    (us : UserStake) (early_unstake : Bool) (now : Int)
    (transferOk : Bool) :
    Except (Fail StakingError)
      (StakingPool × StakingTier × UserStake × Nat) :=
  if us.is_active then
    let step1 : Except (Fail StakingError) Nat :=
      if now < us.end_time then
        if early_unstake then
          match u64Mul us.amount pool.early_unstake_penalty with
          | none => .error .overflow
          | some pr =>
            match u64Sub us.amount (pr / 10000) with
            | none => .error .overflow
            | some a => .ok a
        else .error (.err .stakingPeriodNotComplete)
      else .ok us.amount
    match step1 with
    | .error e => .error e
    | .ok amount_to_return =>
      match calculate_rewards us tier now with
      | .error e => .error e
      | .ok rewards =>
        match u64Add amount_to_return rewards with
        | none => .error .overflow
        | some ret =>
          match u64Sub pool.total_staked us.amount with
          | none => .error .overflow
          | some pt =>
            match u64Sub tier.total_staked us.amount with
            | none => .error .overflow
            | some tt =>
              match u64Add pool.total_rewards_distributed rewards with
              | none => .error .overflow
              | some trd =>
                match u64Add us.rewards_claimed rewards with
                | none => .error .overflow
                | some rc =>
                  if transferOk then
                    .ok ({ pool with total_staked := pt,
                                     total_rewards_distributed := trd },
                         { tier with total_staked := tt },
                         { us with is_active := false,
                                   rewards_claimed := rc },
                         ret)
                  else .error .cpi
  else .error (.err .stakeNotActive)

/-- claim_rewards (lines 135-170).  Requires an active stake and a
positive claimable amount; adds it to `total_rewards_distributed` and
`rewards_claimed` (checked `u64` additions) and pays it from the vault.
The result carries the amount the vault transfer CPI moved. -/
def claim_rewards (pool : StakingPool) (tier : StakingTier)
    (us : UserStake) (now : Int) (transferOk : Bool) :
    Except (Fail StakingError) (StakingPool × UserStake × Nat) :=
  if us.is_active then
    match calculate_rewards us tier now with
    | .error e => .error e
    | .ok rewards =>
      if rewards > 0 then
        match u64Add pool.total_rewards_distributed rewards with
        | none => .error .overflow
        | some trd =>
          match u64Add us.rewards_claimed rewards with
          | none => .error .overflow
          | some rc =>
            if transferOk then
              .ok ({ pool with total_rewards_distributed := trd },
                   { us with rewards_claimed := rc },
                   rewards)
            else .error .cpi
      else .error (.err .noRewardsAvailable)
  else .error (.err .stakeNotActive)

/-! ## Marketplace Engine (src/iamai-dao/contracts/marketplace/src/lib.rs) -/

/-- ErrorCode of the marketplace program (lines 346-358). -/
inductive MarketError where
  | modelNotActive
  | invalidRating
  | noAccessToModel
  | unauthorized
  | insufficientFunds
deriving DecidableEq

/-- Marketplace record (numeric fields). -/
structure Marketplace where
  royalty_percentage : Nat
  total_models : Nat
  total_sales : Nat
  total_volume : Nat
deriving DecidableEq

/-- ModelListing record (numeric and status fields; title, description,
ipfs hash, model type and the pubkey fields are not read by purchase). -/
structure ModelListing where
  price : Nat
  created_at : Int
  sales_count : Nat
  total_revenue : Nat
  is_active : Bool
  rating_sum : Nat
  rating_count : Nat
deriving DecidableEq

/-- PurchaseRecord record (lines 315-323). -/
structure PurchaseRecord where
  price_paid : Nat
  purchased_at : Int
  has_access : Bool
deriving DecidableEq

/-- purchase_model (lines 60-112).  Requires an active listing;
`royalty_amount = (price * royalty_percentage as u64) / 10000` is a
plain `u64` product and `creator_amount = price - royalty_amount` a
checked subtraction; the royalty transfer CPI runs only when
`royalty_amount > 0`, then the creator transfer CPI, then the purchase
record is written and the four counters grow (checked `u64` additions).
The result carries the updated records, the new purchase record, and the
two amounts the CPIs debited from the buyer. -/
def purchase_model (m : Marketplace) (l : ModelListing) (now : Int)
    (royaltyOk creatorOk : Bool) :
    Except (Fail MarketError)
      (Marketplace × ModelListing × PurchaseRecord × Nat × Nat) :=
  if l.is_active then
    match u64Mul l.price m.royalty_percentage with
    | none => .error .overflow
    | some pr =>
      let royalty_amount := pr / 10000
      match u64Sub l.price royalty_amount with
      | none => .error .overflow
      | some creator_amount =>
        if royalty_amount > 0 && !royaltyOk then .error .cpi
        else if !creatorOk then .error .cpi
        else
          let record : PurchaseRecord :=
            { price_paid := l.price
              purchased_at := now
              has_access := true }
          match u64Add l.sales_count 1 with
          | none => .error .overflow
          | some sc =>
            match u64Add l.total_revenue l.price with
            | none => .error .overflow
            | some tr =>
              match u64Add m.total_sales 1 with
              | none => .error .overflow
              | some ts =>
                match u64Add m.total_volume l.price with
                | none => .error .overflow
                | some tv =>
                  .ok ({ m with total_sales := ts, total_volume := tv },
                       { l with sales_count := sc, total_revenue := tr },
                       record, royalty_amount, creator_amount)
  else .error (.err .modelNotActive)

/-! ## Whole-system step (one record of each kind, spec §5) -/

/-- The records one request of any engine can touch. -/
structure SysState where
  token : TokenInfo
  gov : Governance
  prop : Proposal
  pool : StakingPool
  tier : StakingTier
  stake : UserStake
  market : Marketplace
  listing : ModelListing
deriving DecidableEq

/-- One external request, naming one operation of one engine, with the
outcomes of the token-ledger sub-calls it performs. -/
inductive SysOp where
  | mintOp (amount : Nat) (ok : Bool)
  | burnOp (amount : Nat) (ok : Bool)
  | transferOp (amount : Nat) (feeOk sendOk : Bool)
  | finalizeOp (now : Int)
  | stakeOp (now : Int) (amount : Nat) (tier_index : Nat) (ok : Bool)
  | unstakeOp (early : Bool) (now : Int) (ok : Bool)
  | claimOp (now : Int) (ok : Bool)
  | purchaseOp (now : Int) (royaltyOk creatorOk : Bool)
deriving DecidableEq

/-- Run one request against the records, returning the mutated records
on success and `none` when the instruction fails. -/
def sys_step (s : SysState) : SysOp → Option SysState
  | .mintOp a ok =>
    (mint_tokens s.token a ok).toOption.map fun t => { s with token := t }
  | .burnOp a ok =>
    (burn_tokens s.token a ok).toOption.map fun t => { s with token := t }
  | .transferOp a fOk sOk =>
    (transfer_with_fee s.token a fOk sOk).toOption.map fun _ => s
  | .finalizeOp now =>
    (finalize_proposal s.gov s.prop now).toOption.map fun p =>
      { s with prop := p }
  | .stakeOp now a i ok =>
    (stake_tokens s.pool s.tier now a i ok).toOption.map fun r =>
      { s with pool := r.1, tier := r.2.1, stake := r.2.2 }
  | .unstakeOp e now ok =>
    (unstake_tokens s.pool s.tier s.stake e now ok).toOption.map fun r =>
      { s with pool := r.1, tier := r.2.1, stake := r.2.2.1 }
  | .claimOp now ok =>
    (claim_rewards s.pool s.tier s.stake now ok).toOption.map fun r =>
      { s with pool := r.1, stake := r.2.1 }
  | .purchaseOp now rOk cOk =>
    (purchase_model s.market s.listing now rOk cOk).toOption.map fun r =>
      { s with market := r.1, listing := r.2.1 }

/-- Host-level execution of one request.  Modelled from the spec:
§5 and §9 place transaction atomicity in the host ledger (an external
collaborator, not part of src/) — when an instruction fails, every
record write it attempted is discarded and the previous records stand. -/
def sys_exec (s : SysState) (op : SysOp) : SysState :=
  (sys_step s op).getD s

/-! ## Theorems -/

/-- C1, counterexample: with `circulating_supply = 0`, `burn(1)` aborts
with an arithmetic underflow, not with a typed error — the token
program's ErrorCode has no `CirculationUnderflow` variant at all, so the
burn operation cannot fail with `CirculationUnderflow`. -/
theorem C1_counterexample :
    burn_tokens (init_token 100) 1 true = .error .overflow ∧
    burn_tokens (init_token 100) 1 true ≠
      .error (.err TokenError.exceedsMaxSupply) ∧
    burn_tokens (init_token 100) 1 true ≠
      .error (.err TokenError.notInitialized) ∧
    burn_tokens (init_token 100) 1 true ≠
      .error (.err TokenError.unauthorized) := by
  decide

/-- C1, amended: for every amount and every TokenInfo state, burn
decrements `circulating_supply` by `amount` when
`amount ≤ circulating_supply`; when `amount > circulating_supply` it
fails with an arithmetic-underflow abort of the unchecked
`circulating_supply -= amount` (there is no `CirculationUnderflow`
error code). -/
theorem C1_burn_amended (ti : TokenInfo) (amount : Nat) :
    (amount ≤ ti.circulating_supply →
      burn_tokens ti amount true =
        .ok { ti with
              circulating_supply := ti.circulating_supply - amount }) ∧
    (ti.circulating_supply < amount →
      burn_tokens ti amount true = .error .overflow) := by
  constructor
  · intro h
    simp [burn_tokens, u64Sub, h]
  · intro h
    simp [burn_tokens, u64Sub, Nat.not_le.mpr h]

/-- C1, witness for the amended theorem at concrete inputs. -/
theorem C1_burn_amended_witness :
    burn_tokens { total_supply := 100, circulating_supply := 50,
                  transfer_fee_basis_points := 10 } 20 true =
      .ok { total_supply := 100, circulating_supply := 30,
            transfer_fee_basis_points := 10 } ∧
    burn_tokens { total_supply := 100, circulating_supply := 0,
                  transfer_fee_basis_points := 10 } 7 true =
      .error .overflow :=
  ⟨(C1_burn_amended { total_supply := 100, circulating_supply := 50, transfer_fee_basis_points := 10 } 20).1 (by decide),
   (C1_burn_amended { total_supply := 100, circulating_supply := 0, transfer_fee_basis_points := 10 } 7).2 (by decide)⟩

/-- Invariant step lemma: one token request preserves
`circulating_supply ≤ total_supply` and never changes `total_supply`. -/
theorem token_step_inv (ti : TokenInfo) (op : TokenOp)
    (h : ti.circulating_supply ≤ ti.total_supply) :
    (token_step ti op).circulating_supply ≤
      (token_step ti op).total_supply := by
  cases op with
  | mint a ok =>
    simp only [token_step, mint_tokens, u64Add]
    by_cases h1 : ti.circulating_supply + a < U64
    · simp only [if_pos h1]
      by_cases h2 : ti.circulating_supply + a ≤ ti.total_supply
      · cases ok <;> simp [h2, h]
      · simp [h2, h]
    · simp [h1, h]
  | burn a ok =>
    simp only [token_step, burn_tokens, u64Sub]
    by_cases h1 : a ≤ ti.circulating_supply
    · cases ok <;> simp [h1, h] <;> omega
    · simp [h1, h]

/-- Invariant run lemma: a sequence of token requests preserves
`circulating_supply ≤ total_supply`. -/
theorem token_run_inv (ti : TokenInfo) (ops : List TokenOp)
    (h : ti.circulating_supply ≤ ti.total_supply) :
    (token_run ti ops).circulating_supply ≤
      (token_run ti ops).total_supply := by
  induction ops generalizing ti with
  | nil => simpa [token_run]
  | cons op ops ih =>
    have := token_step_inv ti op h
    simpa [token_run, List.foldl_cons] using ih (token_step ti op) this

/-- C2, counterexample: starting from an initialized ledger with
`total_supply = 2^64 - 1` and minting it out, a further `mint(1)` has
`circulating_supply + amount > total_supply`, but it fails with an
arithmetic-overflow abort of the 64-bit sum, not with
`ExceedsMaxSupply`. -/
theorem C2_counterexample :
    token_run (init_token (U64 - 1)) [.mint (U64 - 1) true] =
      { total_supply := U64 - 1, circulating_supply := U64 - 1,
        transfer_fee_basis_points := 10 } ∧
    mint_tokens
      { total_supply := U64 - 1, circulating_supply := U64 - 1,
        transfer_fee_basis_points := 10 } 1 true = .error .overflow ∧
    mint_tokens
      { total_supply := U64 - 1, circulating_supply := U64 - 1,
        transfer_fee_basis_points := 10 } 1 true ≠
      .error (.err TokenError.exceedsMaxSupply) := by
  decide

/-- C2, amended: for every sequence of mint and burn requests from an
initialized TokenInfo the invariant
`circulating_supply ≤ total_supply` holds after every request (a failed
request leaves the record unchanged), and mint fails with
`ExceedsMaxSupply` whenever `circulating_supply + amount >
total_supply`, provided the 64-bit sum does not overflow — when
`circulating_supply + amount ≥ 2^64` the failure is an
arithmetic-overflow abort instead. -/
theorem C2_amended :
    (∀ (total fee : Nat) (ops : List TokenOp),
      (token_run
        { total_supply := total, circulating_supply := 0,
          transfer_fee_basis_points := fee } ops).circulating_supply ≤
        (token_run
          { total_supply := total, circulating_supply := 0,
            transfer_fee_basis_points := fee } ops).total_supply) ∧
    (∀ (ti : TokenInfo) (amount : Nat) (ok : Bool),
      ti.total_supply < ti.circulating_supply + amount →
      ti.circulating_supply + amount < U64 →
      mint_tokens ti amount ok = .error (.err .exceedsMaxSupply)) := by
  constructor
  · intro total fee ops
    exact token_run_inv _ ops (by simp)
  · intro ti amount ok h1 h2
    simp [mint_tokens, u64Add, h2, Nat.not_le.mpr h1]

/-- C2, witness for the amended theorem at concrete inputs. -/
theorem C2_amended_witness :
    (token_run
      { total_supply := 100, circulating_supply := 0,
        transfer_fee_basis_points := 10 }
      [.mint 60 true, .burn 20 true]).circulating_supply ≤
      (token_run
        { total_supply := 100, circulating_supply := 0,
          transfer_fee_basis_points := 10 }
        [.mint 60 true, .burn 20 true]).total_supply ∧
    mint_tokens
      { total_supply := 100, circulating_supply := 100,
        transfer_fee_basis_points := 10 } 1 true =
      .error (.err .exceedsMaxSupply) :=
  ⟨C2_amended.1 100 10 [.mint 60 true, .burn 20 true],
   C2_amended.2 { total_supply := 100, circulating_supply := 100, transfer_fee_basis_points := 10 } 1 true (by decide) (by decide)⟩

/-- C3: finalize computes the quorum from the hardcoded mock constant
`1_000_000_000`, not from the live `TokenInfo.total_supply` (the
`FinalizeProposal` accounts do not even include a TokenInfo).  With
`quorum_percentage = 10` and `total_votes = 150_000_000` the code
passes the proposal (required quorum `1e9 * 10 / 100 = 100_000_000`),
whereas with a live supply of `2_000_000_000` the claim's formula gives
a required quorum of `200_000_000`, which `total_votes` does not reach. -/
theorem C3_mock_supply :
    finalize_proposal
      { min_tokens_for_proposal := 100, quorum_percentage := 10,
        execution_delay := 0, proposal_count := 1 }
      { votes_for := 150000000, votes_against := 0,
        total_votes := 150000000, start_time := 0, end_time := 0,
        execution_time := 0, status := .active, quorum_reached := false }
      1 =
      .ok { votes_for := 150000000, votes_against := 0,
            total_votes := 150000000, start_time := 0, end_time := 0,
            execution_time := 1, status := .passed,
            quorum_reached := true } ∧
    (150000000 : Nat) < 2000000000 * 10 / 100 := by
  decide

/-- C4, counterexample: `amount = 2^62` lies in `[0, 2^63)`, yet on the
initialized ledger (`fee_bps = 10`) the product `amount * fee_bps` is a
plain 64-bit multiplication that overflows, so the transfer aborts and
no fee/sent pair with `fee + sent == amount` is produced — there is no
128-bit accumulator. -/
theorem C4_counterexample :
    (4611686018427387904 : Nat) < 2 ^ 63 ∧
    transfer_with_fee (init_token U64) 4611686018427387904 true true =
      .error .overflow ∧
    transfer_with_fee (init_token U64) 4611686018427387904 true true ≠
      .ok (4611686018427387904 * 10 / 10000,
           4611686018427387904 - 4611686018427387904 * 10 / 10000) := by
  decide

/-- C4, amended: for every amount whose 64-bit product with the fee rate
does not overflow (`amount * fee_bps < 2^64`, with `fee_bps ≤ 10000`),
transfer_with_fee computes `fee = floor(amount * fee_bps / 10000)` and
`sent = amount - fee`, and `fee + sent == amount` exactly; the
intermediate product is 64-bit, so larger amounts in `[0, 2^63)` abort
instead. -/
theorem C4_amended (ti : TokenInfo) (amount : Nat)
    (hmul : amount * ti.transfer_fee_basis_points < U64)
    (hbps : ti.transfer_fee_basis_points ≤ 10000) :
    transfer_with_fee ti amount true true =
      .ok (amount * ti.transfer_fee_basis_points / 10000,
           amount - amount * ti.transfer_fee_basis_points / 10000) ∧
    amount * ti.transfer_fee_basis_points / 10000 +
      (amount - amount * ti.transfer_fee_basis_points / 10000) =
        amount := by
  have hfee : amount * ti.transfer_fee_basis_points / 10000 ≤ amount := by
    calc amount * ti.transfer_fee_basis_points / 10000
        ≤ amount * 10000 / 10000 :=
          Nat.div_le_div_right (Nat.mul_le_mul_left amount hbps)
      _ = amount := Nat.mul_div_cancel amount (by norm_num)
  refine ⟨?_, by omega⟩
  simp [transfer_with_fee, u64Mul, hmul, u64Sub, hfee]

/-- C4, witness for the amended theorem at a concrete input
(`amount = 1_000_000`, initialized fee of 10 bps). -/
theorem C4_amended_witness :
    transfer_with_fee (init_token U64) 1000000 true true =
      .ok (1000000 * 10 / 10000, 1000000 - 1000000 * 10 / 10000) ∧
    1000000 * 10 / 10000 + (1000000 - 1000000 * 10 / 10000) =
      (1000000 : Nat) :=
  C4_amended (init_token U64) 1000000 (by decide) (by decide)

/-- C5: every operation of every engine is all-or-nothing — when an
instruction fails (typed error, arithmetic abort, or failed ledger
sub-call), the host discards its record writes and the state after the
call equals the state before it.  The rollback itself is the host
ledger's transaction semantics (spec §5/§9), an external collaborator
modelled in `sys_exec`; the instruction bodies in src/ do write records
before their fallible sub-transfers. -/
theorem C5_atomicity (s : SysState) (op : SysOp)
    (h : sys_step s op = none) : sys_exec s op = s := by
  simp [sys_exec, h]

/-- C5, witness: a mint exceeding the supply cap fails and leaves the
whole system state unchanged. -/
theorem C5_atomicity_witness :
    sys_step
      { token := { total_supply := 100, circulating_supply := 100,
                   transfer_fee_basis_points := 10 },
        gov := { min_tokens_for_proposal := 1, quorum_percentage := 10,
                 execution_delay := 0, proposal_count := 0 },
        prop := { votes_for := 0, votes_against := 0, total_votes := 0,
                  start_time := 0, end_time := 10, execution_time := 0,
                  status := .active, quorum_reached := false },
        pool := { early_unstake_penalty := 1000, total_staked := 0,
                  total_rewards_distributed := 0 },
        tier := { duration_days := 30, apy_basis_points := 500,
                  total_staked := 0, is_active := true },
        stake := { amount := 0, start_time := 0, end_time := 0,
                   rewards_claimed := 0, is_active := false },
        market := { royalty_percentage := 250, total_models := 0,
                    total_sales := 0, total_volume := 0 },
        listing := { price := 10, created_at := 0, sales_count := 0,
                     total_revenue := 0, is_active := true,
                     rating_sum := 0, rating_count := 0 } }
      (.mintOp 1 true) = none ∧
    sys_exec
      { token := { total_supply := 100, circulating_supply := 100,
                   transfer_fee_basis_points := 10 },
        gov := { min_tokens_for_proposal := 1, quorum_percentage := 10,
                 execution_delay := 0, proposal_count := 0 },
        prop := { votes_for := 0, votes_against := 0, total_votes := 0,
                  start_time := 0, end_time := 10, execution_time := 0,
                  status := .active, quorum_reached := false },
        pool := { early_unstake_penalty := 1000, total_staked := 0,
                  total_rewards_distributed := 0 },
        tier := { duration_days := 30, apy_basis_points := 500,
                  total_staked := 0, is_active := true },
        stake := { amount := 0, start_time := 0, end_time := 0,
                   rewards_claimed := 0, is_active := false },
        market := { royalty_percentage := 250, total_models := 0,
                    total_sales := 0, total_volume := 0 },
        listing := { price := 10, created_at := 0, sales_count := 0,
                     total_revenue := 0, is_active := true,
                     rating_sum := 0, rating_count := 0 } }
      (.mintOp 1 true) =
      { token := { total_supply := 100, circulating_supply := 100,
                   transfer_fee_basis_points := 10 },
        gov := { min_tokens_for_proposal := 1, quorum_percentage := 10,
                 execution_delay := 0, proposal_count := 0 },
        prop := { votes_for := 0, votes_against := 0, total_votes := 0,
                  start_time := 0, end_time := 10, execution_time := 0,
                  status := .active, quorum_reached := false },
        pool := { early_unstake_penalty := 1000, total_staked := 0,
                  total_rewards_distributed := 0 },
        tier := { duration_days := 30, apy_basis_points := 500,
                  total_staked := 0, is_active := true },
        stake := { amount := 0, start_time := 0, end_time := 0,
                   rewards_claimed := 0, is_active := false },
        market := { royalty_percentage := 250, total_models := 0,
                    total_sales := 0, total_volume := 0 },
        listing := { price := 10, created_at := 0, sales_count := 0,
                     total_revenue := 0, is_active := true,
                     rating_sum := 0, rating_count := 0 } } :=
  ⟨by decide, C5_atomicity _ (.mintOp 1 true) (by decide)⟩

/-- C10: stake_tokens validates nothing — for every tier (including an
inactive one) and every amount (including 0) it succeeds once the
user-to-vault transfer does, creating an active UserStake with
`start_time = now`, `end_time = now + duration_days * 86400` and both
totals grown by `amount`; and the `tier_index` argument never affects
the result.  The arithmetic side conditions are guaranteed by the
source types (`duration_days : u32`, totals `u64` bounded by the token
supply). -/
theorem C10_stake_no_validation (pool : StakingPool)
    (tier : StakingTier) (now : Int) (amount : Nat) (i j : Nat)
    (hdur : (tier.duration_days * 86400 : Int) ≤ I64_MAX)
    (hlo : I64_MIN ≤ now + (tier.duration_days * 86400 : Int))
    (hhi : now + (tier.duration_days * 86400 : Int) ≤ I64_MAX)
    (hp : pool.total_staked + amount < U64)
    (ht : tier.total_staked + amount < U64) :
    stake_tokens pool tier now amount i true =
      .ok ({ pool with total_staked := pool.total_staked + amount },
           { tier with total_staked := tier.total_staked + amount },
           { amount := amount, start_time := now,
             end_time := now + (tier.duration_days * 86400 : Int),
             rewards_claimed := 0, is_active := true }) ∧
    stake_tokens pool tier now amount i true =
      stake_tokens pool tier now amount j true := by
  refine ⟨?_, rfl⟩
  simp [stake_tokens, hdur, i64Add, hlo, hhi, u64Add, hp, ht]

/-- C10, witness: an inactive tier and a zero amount are accepted, and
two different tier indexes give the same result. -/
theorem C10_stake_no_validation_witness :
    stake_tokens
      { early_unstake_penalty := 1000, total_staked := 5,
        total_rewards_distributed := 0 }
      { duration_days := 30, apy_basis_points := 500, total_staked := 2,
        is_active := false } 1000 0 3 true =
      .ok ({ early_unstake_penalty := 1000, total_staked := 5 + 0,
             total_rewards_distributed := 0 },
           { duration_days := 30, apy_basis_points := 500,
             total_staked := 2 + 0, is_active := false },
           { amount := 0, start_time := 1000,
             end_time := 1000 + ((30 : Nat) * 86400 : Int),
             rewards_claimed := 0, is_active := true }) ∧
    stake_tokens
      { early_unstake_penalty := 1000, total_staked := 5,
        total_rewards_distributed := 0 }
      { duration_days := 30, apy_basis_points := 500, total_staked := 2,
        is_active := false } 1000 0 3 true =
      stake_tokens
        { early_unstake_penalty := 1000, total_staked := 5,
          total_rewards_distributed := 0 }
        { duration_days := 30, apy_basis_points := 500,
          total_staked := 2, is_active := false } 1000 0 7 true :=
  C10_stake_no_validation
    { early_unstake_penalty := 1000, total_staked := 5,
      total_rewards_distributed := 0 }
    { duration_days := 30, apy_basis_points := 500, total_staked := 2,
      is_active := false } 1000 0 3 7
    (by decide) (by decide) (by decide) (by decide) (by decide)

/-- C8, counterexample: an active listing with `price = 2^63` and a
20 bps royalty has `price * royalty_bps ≥ 2^64`; the plain 64-bit
product overflows and purchase_model aborts instead of splitting the
price, so no royalty/creator pair with `royalty + creator == price` is
produced or transferred. -/
theorem C8_counterexample :
    purchase_model
      { royalty_percentage := 20, total_models := 1, total_sales := 0,
        total_volume := 0 }
      { price := 9223372036854775808, created_at := 0, sales_count := 0,
        total_revenue := 0, is_active := true, rating_sum := 0,
        rating_count := 0 }
      0 true true = .error .overflow := by
  decide

/-- C8, amended: for every active listing whose 64-bit royalty product
does not overflow (`price * royalty_bps < 2^64`, `royalty_bps ≤ 10000`)
and whose counters do not overflow, purchase_model computes
`royalty = floor(price * royalty_bps / 10000)` and
`creator_amount = price - royalty`, so `royalty + creator_amount ==
price` exactly, the buyer is debited the two amounts (royalty to the
treasury when positive, the rest to the creator), the purchase record
grants access at `price_paid = price`, and the four counters grow. -/
theorem C8_purchase_amended (m : Marketplace) (l : ModelListing)
    (now : Int)
    (hact : l.is_active = true)
    (hmul : l.price * m.royalty_percentage < U64)
    (hbps : m.royalty_percentage ≤ 10000)
    (hsc : l.sales_count + 1 < U64)
    (htr : l.total_revenue + l.price < U64)
    (hts : m.total_sales + 1 < U64)
    (htv : m.total_volume + l.price < U64) :
    purchase_model m l now true true =
      .ok ({ m with total_sales := m.total_sales + 1,
                    total_volume := m.total_volume + l.price },
           { l with sales_count := l.sales_count + 1,
                    total_revenue := l.total_revenue + l.price },
           { price_paid := l.price, purchased_at := now,
             has_access := true },
           l.price * m.royalty_percentage / 10000,
           l.price - l.price * m.royalty_percentage / 10000) ∧
    l.price * m.royalty_percentage / 10000 +
      (l.price - l.price * m.royalty_percentage / 10000) = l.price := by
  have hroy : l.price * m.royalty_percentage / 10000 ≤ l.price := by
    calc l.price * m.royalty_percentage / 10000
        ≤ l.price * 10000 / 10000 :=
          Nat.div_le_div_right (Nat.mul_le_mul_left l.price hbps)
      _ = l.price := Nat.mul_div_cancel l.price (by norm_num)
  refine ⟨?_, by omega⟩
  simp [purchase_model, hact, u64Mul, hmul, u64Sub, hroy, u64Add,
        hsc, htr, hts, htv]

/-- C8, witness for the amended theorem at a concrete input
(`price = 1_000_000`, 250 bps royalty: 25_000 + 975_000 = 1_000_000). -/
theorem C8_purchase_amended_witness :
    purchase_model
      { royalty_percentage := 250, total_models := 1, total_sales := 0,
        total_volume := 0 }
      { price := 1000000, created_at := 0, sales_count := 0,
        total_revenue := 0, is_active := true, rating_sum := 0,
        rating_count := 0 }
      7 true true =
      .ok ({ royalty_percentage := 250, total_models := 1,
             total_sales := 0 + 1, total_volume := 0 + 1000000 },
           { price := 1000000, created_at := 0, sales_count := 0 + 1,
             total_revenue := 0 + 1000000, is_active := true,
             rating_sum := 0, rating_count := 0 },
           { price_paid := 1000000, purchased_at := 7,
             has_access := true },
           1000000 * 250 / 10000, 1000000 - 1000000 * 250 / 10000) ∧
    1000000 * 250 / 10000 +
      (1000000 - 1000000 * 250 / 10000) = (1000000 : Nat) :=
  C8_purchase_amended
    { royalty_percentage := 250, total_models := 1, total_sales := 0,
      total_volume := 0 }
    { price := 1000000, created_at := 0, sales_count := 0,
      total_revenue := 0, is_active := true, rating_sum := 0,
      rating_count := 0 }
    7 rfl (by decide) (by decide) (by decide) (by decide) (by decide)
    (by decide)

/-- Gross accrued reward of a stake at a given time, in exact (Nat)
arithmetic: `amount * apy_bps * elapsed / (10000 * 31536000)` with
`elapsed = min(now, end_time) - start_time` clamped at zero. -/
def gross_accrued (us : UserStake) (t : StakingTier) (now : Int) : Nat :=
  us.amount * t.apy_basis_points *
    (min now us.end_time - us.start_time).toNat / (10000 * 31536000)

/-- Forward evaluation of calculate_rewards: on a well-formed stake
(`start_time ≤ end_time ≤` the `i64` range) queried at
`now ≥ start_time`, with the 128-bit product in range and the claimed
rewards not exceeding the truncated gross, the claimable reward is the
truncated gross minus the rewards already claimed. -/
theorem calculate_rewards_eq (us : UserStake) (t : StakingTier)
    (now : Int)
    (hse : us.start_time ≤ us.end_time)
    (hsn : us.start_time ≤ now)
    (hdr : us.end_time - us.start_time ≤ I64_MAX)
    (hfit : us.amount * t.apy_basis_points *
      (min now us.end_time - us.start_time).toNat < U128)
    (hcl : us.rewards_claimed ≤ u128CastU64 (gross_accrued us t now)) :
    calculate_rewards us t now =
      .ok (u128CastU64 (gross_accrued us t now) - us.rewards_claimed) := by
  have hd0 : 0 ≤ min now us.end_time - us.start_time := by
    have := le_min hsn hse
    omega
  have hdm : min now us.end_time - us.start_time ≤ I64_MAX := by
    have : min now us.end_time ≤ us.end_time := min_le_right _ _
    omega
  have hsub : i64Sub (min now us.end_time) us.start_time =
      some (min now us.end_time - us.start_time) := by
    have hlo : I64_MIN ≤ min now us.end_time - us.start_time := by
      have : (I64_MIN : Int) ≤ 0 := by norm_num [I64_MIN]
      omega
    simp [i64Sub, hlo, hdm]
  have hcast : i64CastU128 (min now us.end_time - us.start_time) =
      (min now us.end_time - us.start_time).toNat := by
    unfold i64CastU128
    rw [Int.emod_eq_of_lt hd0
      (lt_of_le_of_lt hdm (by norm_num [I64_MAX, U128]))]
  simp only [gross_accrued] at hcl ⊢
  simp only [calculate_rewards, hsub, hcast]
  simp [u128Mul, hfit, u64Sub, hcl]

/-- C6, counterexample: a stake of the whole `2^64 - 1` supply in a
tier with `apy_bps = 65535` and `duration_days = 2^32 - 1` (all values
the source types admit) makes the 128-bit product
`amount * apy_bps * elapsed` overflow at the end of the term, so
calculate_rewards aborts instead of returning the claimed formula
value. -/
theorem C6_counterexample :
    calculate_rewards
      { amount := U64 - 1, start_time := 0, end_time := 371085174288000,
        rewards_claimed := 0, is_active := true }
      { duration_days := 4294967295, apy_basis_points := 65535,
        total_staked := U64 - 1, is_active := true }
      371085174288000 = .error .overflow ∧
    calculate_rewards
      { amount := U64 - 1, start_time := 0, end_time := 371085174288000,
        rewards_claimed := 0, is_active := true }
      { duration_days := 4294967295, apy_basis_points := 65535,
        total_staked := U64 - 1, is_active := true }
      371085174288000 ≠
      .ok (u128CastU64 (gross_accrued
        { amount := U64 - 1, start_time := 0,
          end_time := 371085174288000, rewards_claimed := 0,
          is_active := true }
        { duration_days := 4294967295, apy_basis_points := 65535,
          total_staked := U64 - 1, is_active := true }
        371085174288000) - 0) := by
  constructor
  · decide
  · decide

/-- C6, amended: on every well-formed active stake queried at
`now ≥ start_time`, whenever the 128-bit product is in range and the
claimed rewards do not exceed the truncated gross, the claimable reward
used by claim_rewards and unstake_tokens equals
`trunc64(amount * apy_bps * elapsed / (10000 * 31536000)) -
rewards_claimed` with `elapsed = min(now, end_time) - start_time`, and
rewards stop accruing at `end_time`: for `now ≥ end_time` the result
equals the result at `end_time`. -/
theorem C6_rewards_amended (us : UserStake) (t : StakingTier)
    (now : Int)
    (hse : us.start_time ≤ us.end_time)
    (hsn : us.start_time ≤ now)
    (hdr : us.end_time - us.start_time ≤ I64_MAX)
    (hfit : us.amount * t.apy_basis_points *
      (min now us.end_time - us.start_time).toNat < U128)
    (hcl : us.rewards_claimed ≤ u128CastU64 (gross_accrued us t now)) :
    calculate_rewards us t now =
      .ok (u128CastU64 (gross_accrued us t now) - us.rewards_claimed) ∧
    (us.end_time ≤ now →
      calculate_rewards us t now = calculate_rewards us t us.end_time) := by
  have h1 := calculate_rewards_eq us t now hse hsn hdr hfit hcl
  refine ⟨h1, fun hend => ?_⟩
  have hmin : min now us.end_time = us.end_time := min_eq_right hend
  have hmin2 : min us.end_time us.end_time = us.end_time := min_self _
  have hg : gross_accrued us t us.end_time = gross_accrued us t now := by
    unfold gross_accrued
    rw [hmin, hmin2]
  have h2 := calculate_rewards_eq us t us.end_time hse hse hdr
    (by rw [show min us.end_time us.end_time - us.start_time =
        min now us.end_time - us.start_time by rw [hmin, hmin2]]
        exact hfit)
    (by rw [hg]; exact hcl)
  rw [h1, h2, hg]

/-- C6, witness: the spec §8 scenario — 1000 tokens at 10% APY for 365
days give exactly 100 tokens of reward at the end of the term, and the
value at a later query time equals the value at `end_time`. -/
theorem C6_rewards_amended_witness :
    calculate_rewards
      { amount := 1000, start_time := 0, end_time := 31536000,
        rewards_claimed := 0, is_active := true }
      { duration_days := 365, apy_basis_points := 1000,
        total_staked := 1000, is_active := true }
      31536000 = .ok 100 ∧
    calculate_rewards
      { amount := 1000, start_time := 0, end_time := 31536000,
        rewards_claimed := 0, is_active := true }
      { duration_days := 365, apy_basis_points := 1000,
        total_staked := 1000, is_active := true }
      31536000 =
      calculate_rewards
        { amount := 1000, start_time := 0, end_time := 31536000,
          rewards_claimed := 0, is_active := true }
        { duration_days := 365, apy_basis_points := 1000,
          total_staked := 1000, is_active := true }
        31536000 := by
  have h := C6_rewards_amended
    { amount := 1000, start_time := 0, end_time := 31536000,
      rewards_claimed := 0, is_active := true }
    { duration_days := 365, apy_basis_points := 1000,
      total_staked := 1000, is_active := true }
    31536000 (by decide) (by decide) (by decide) (by decide) (by decide)
  refine ⟨?_, h.2 (by decide)⟩
  rw [h.1]
  decide

/-- C7, counterexample: an early unstake of `amount = 2^62` with a
`9999` bps penalty has `amount * penalty_bps ≥ 2^64`; the plain 64-bit
penalty product overflows and unstake_tokens aborts instead of
returning `amount - floor(amount * penalty_bps / 10000)`. -/
theorem C7_counterexample :
    unstake_tokens
      { early_unstake_penalty := 9999,
        total_staked := 4611686018427387904,
        total_rewards_distributed := 0 }
      { duration_days := 365, apy_basis_points := 1000,
        total_staked := 4611686018427387904, is_active := true }
      { amount := 4611686018427387904, start_time := 0,
        end_time := 31536000, rewards_claimed := 0, is_active := true }
      true 5 true = .error .overflow ∧
    unstake_tokens
      { early_unstake_penalty := 9999,
        total_staked := 4611686018427387904,
        total_rewards_distributed := 0 }
      { duration_days := 365, apy_basis_points := 1000,
        total_staked := 4611686018427387904, is_active := true }
      { amount := 4611686018427387904, start_time := 0,
        end_time := 31536000, rewards_claimed := 0, is_active := true }
      true 5 true ≠ .error (.err .stakingPeriodNotComplete) := by
  constructor
  · decide
  · decide

/-- C7, amended: for every active well-formed stake whose 64-bit
penalty product and additions do not overflow, unstake_tokens returns
principal `amount` plus the claimable reward when `now ≥ end_time`;
when `now < end_time` it fails with `StakingPeriodNotComplete` unless
`early_unstake = true`, in which case it returns
`amount - floor(amount * early_unstake_penalty_bps / 10000)` plus the
claimable reward; in both success cases it marks `is_active = false`,
adds the reward to `rewards_claimed` and
`total_rewards_distributed`, and decrements pool and tier
`total_staked` by the original `amount`. -/
theorem C7_unstake_amended (pool : StakingPool) (tier : StakingTier)
    (us : UserStake) (now : Int) (e : Bool)
    (hact : us.is_active = true)
    (hse : us.start_time ≤ us.end_time)
    (hsn : us.start_time ≤ now)
    (hdr : us.end_time - us.start_time ≤ I64_MAX)
    (hfit : us.amount * tier.apy_basis_points *
      (min now us.end_time - us.start_time).toNat < U128)
    (hcl : us.rewards_claimed ≤
      u128CastU64 (gross_accrued us tier now))
    (hpool : us.amount ≤ pool.total_staked)
    (htier : us.amount ≤ tier.total_staked)
    (hret : us.amount +
      (u128CastU64 (gross_accrued us tier now) - us.rewards_claimed)
        < U64)
    (htrd : pool.total_rewards_distributed +
      (u128CastU64 (gross_accrued us tier now) - us.rewards_claimed)
        < U64)
    (hpen : us.amount * pool.early_unstake_penalty < U64)
    (hpbps : pool.early_unstake_penalty ≤ 10000) :
    (us.end_time ≤ now →
      unstake_tokens pool tier us e now true =
        .ok ({ pool with
               total_staked := pool.total_staked - us.amount,
               total_rewards_distributed :=
                 pool.total_rewards_distributed +
                   (u128CastU64 (gross_accrued us tier now) -
                     us.rewards_claimed) },
             { tier with
               total_staked := tier.total_staked - us.amount },
             { us with
               is_active := false,
               rewards_claimed := us.rewards_claimed +
                 (u128CastU64 (gross_accrued us tier now) -
                   us.rewards_claimed) },
             us.amount +
               (u128CastU64 (gross_accrued us tier now) -
                 us.rewards_claimed))) ∧
    (now < us.end_time →
      unstake_tokens pool tier us true now true =
        .ok ({ pool with
               total_staked := pool.total_staked - us.amount,
               total_rewards_distributed :=
                 pool.total_rewards_distributed +
                   (u128CastU64 (gross_accrued us tier now) -
                     us.rewards_claimed) },
             { tier with
               total_staked := tier.total_staked - us.amount },
             { us with
               is_active := false,
               rewards_claimed := us.rewards_claimed +
                 (u128CastU64 (gross_accrued us tier now) -
                   us.rewards_claimed) },
             us.amount -
               us.amount * pool.early_unstake_penalty / 10000 +
               (u128CastU64 (gross_accrued us tier now) -
                 us.rewards_claimed))) ∧
    (now < us.end_time →
      unstake_tokens pool tier us false now true =
        .error (.err .stakingPeriodNotComplete)) := by
  have hcalc := calculate_rewards_eq us tier now hse hsn hdr hfit hcl
  have hG : u128CastU64 (gross_accrued us tier now) < U64 :=
    Nat.mod_lt _ (by norm_num [U64])
  have hrc : us.rewards_claimed +
      (u128CastU64 (gross_accrued us tier now) - us.rewards_claimed)
        < U64 := by omega
  have hpenle : us.amount * pool.early_unstake_penalty / 10000 ≤
      us.amount := by
    calc us.amount * pool.early_unstake_penalty / 10000
        ≤ us.amount * 10000 / 10000 :=
          Nat.div_le_div_right (Nat.mul_le_mul_left us.amount hpbps)
      _ = us.amount := Nat.mul_div_cancel us.amount (by norm_num)
  have hret2 : us.amount -
      us.amount * pool.early_unstake_penalty / 10000 +
      (u128CastU64 (gross_accrued us tier now) - us.rewards_claimed)
        < U64 := by omega
  refine ⟨fun hontime => ?_, fun hearly => ?_, fun hearly => ?_⟩
  · simp [unstake_tokens, hact, not_lt.mpr hontime, hcalc, u64Add,
          u64Sub, hret, hpool, htier, htrd, hrc]
  · simp [unstake_tokens, hact, hearly, hcalc, u64Mul, hpen, u64Add,
          u64Sub, hpenle, hret2, hpool, htier, htrd, hrc]
  · simp [unstake_tokens, hact, hearly]

/-- C7, witness: on-time unstake of 1000 tokens after a full 365-day
term at 10% APY returns 1000 + 100, and an early unstake at `now = 5`
with a 1000 bps penalty returns 900 plus the (zero-elapsed) reward. -/
theorem C7_unstake_amended_witness :
    unstake_tokens
      { early_unstake_penalty := 1000, total_staked := 1000,
        total_rewards_distributed := 0 }
      { duration_days := 365, apy_basis_points := 1000,
        total_staked := 1000, is_active := true }
      { amount := 1000, start_time := 0, end_time := 31536000,
        rewards_claimed := 0, is_active := true }
      false 31536000 true =
      .ok ({ early_unstake_penalty := 1000, total_staked := 0,
             total_rewards_distributed := 100 },
           { duration_days := 365, apy_basis_points := 1000,
             total_staked := 0, is_active := true },
           { amount := 1000, start_time := 0, end_time := 31536000,
             rewards_claimed := 100, is_active := false },
           1100) ∧
    unstake_tokens
      { early_unstake_penalty := 1000, total_staked := 1000,
        total_rewards_distributed := 0 }
      { duration_days := 365, apy_basis_points := 1000,
        total_staked := 1000, is_active := true }
      { amount := 1000, start_time := 0, end_time := 31536000,
        rewards_claimed := 0, is_active := true }
      true 5 true =
      .ok ({ early_unstake_penalty := 1000, total_staked := 0,
             total_rewards_distributed := 0 },
           { duration_days := 365, apy_basis_points := 1000,
             total_staked := 0, is_active := true },
           { amount := 1000, start_time := 0, end_time := 31536000,
             rewards_claimed := 0, is_active := false },
           900) := by
  constructor
  · have h := (C7_unstake_amended
      { early_unstake_penalty := 1000, total_staked := 1000,
        total_rewards_distributed := 0 }
      { duration_days := 365, apy_basis_points := 1000,
        total_staked := 1000, is_active := true }
      { amount := 1000, start_time := 0, end_time := 31536000,
        rewards_claimed := 0, is_active := true }
      31536000 false rfl (by decide) (by decide) (by decide)
      (by decide) (by decide) (by decide) (by decide) (by decide)
      (by decide) (by decide) (by decide)).1 (by decide)
    rw [h]
    decide
  · have h := (C7_unstake_amended
      { early_unstake_penalty := 1000, total_staked := 1000,
        total_rewards_distributed := 0 }
      { duration_days := 365, apy_basis_points := 1000,
        total_staked := 1000, is_active := true }
      { amount := 1000, start_time := 0, end_time := 31536000,
        rewards_claimed := 0, is_active := true }
      5 true rfl (by decide) (by decide) (by decide)
      (by decide) (by decide) (by decide) (by decide) (by decide)
      (by decide) (by decide) (by decide)).2.1 (by decide)
    rw [h]
    decide

theorem u64Add_inv {a b c : Nat} (h : u64Add a b = some c) :
    c = a + b ∧ a + b < U64 := by
  unfold u64Add at h
  split at h <;> simp_all

theorem u64Sub_inv {a b c : Nat} (h : u64Sub a b = some c) :
    c = a - b ∧ b ≤ a := by
  unfold u64Sub at h
  split at h <;> simp_all

theorem i64Add_inv {a b c : Int} (h : i64Add a b = some c) :
    c = a + b ∧ I64_MIN ≤ a + b ∧ a + b ≤ I64_MAX := by
  unfold i64Add at h
  split at h <;> simp_all

theorem stake_tokens_ok_shape {p₀ : StakingPool} {t₀ : StakingTier}
    {now : Int} {amount idx : Nat} {ok : Bool} {p : StakingPool}
    {t : StakingTier} {us : UserStake}
    (h : stake_tokens p₀ t₀ now amount idx ok = .ok (p, t, us)) :
    us.start_time = now ∧
    us.end_time = now + (t₀.duration_days * 86400 : Int) ∧
    (t₀.duration_days * 86400 : Int) ≤ I64_MAX ∧
    us.rewards_claimed = 0 ∧ us.is_active = true ∧
    us.amount = amount ∧ t.apy_basis_points = t₀.apy_basis_points := by
  unfold stake_tokens at h
  split at h
  case isTrue hdur =>
    split at h
    case h_1 => simp at h
    case h_2 et heq =>
      obtain ⟨he, -, -⟩ := i64Add_inv heq
      split at h
      case h_1 => simp at h
      case h_2 pt hpt =>
        split at h
        case h_1 => simp at h
        case h_2 tt htt =>
          split at h
          case isFalse => simp at h
          case isTrue =>
            simp only [Except.ok.injEq, Prod.mk.injEq] at h
            obtain ⟨hp, ht, hus⟩ := h
            subst hp; subst ht; subst hus
            simp_all
  case isFalse => simp at h

theorem claim_rewards_ok_shape {p : StakingPool} {t : StakingTier}
    {us : UserStake} {now : Int} {ok : Bool} {p' : StakingPool}
    {us' : UserStake} {r : Nat}
    (h : claim_rewards p t us now ok = .ok (p', us', r)) :
    us.is_active = true ∧ calculate_rewards us t now = .ok r ∧
    0 < r ∧
    us' = { us with rewards_claimed := us.rewards_claimed + r } := by
  unfold claim_rewards at h
  split at h
  case isTrue hact =>
    split at h
    case h_1 => simp at h
    case h_2 rw hrw =>
      split at h
      case isTrue hpos =>
        split at h
        case h_1 => simp at h
        case h_2 trd htrd =>
          split at h
          case h_1 => simp at h
          case h_2 rc hrc =>
            split at h
            case isFalse => simp at h
            case isTrue =>
              simp only [Except.ok.injEq, Prod.mk.injEq] at h
              obtain ⟨hp, hus, hr⟩ := h
              obtain ⟨hrceq, -⟩ := u64Add_inv hrc
              subst hp; subst hus; subst hr
              refine ⟨hact, hrw, hpos, ?_⟩
              rw [hrceq]
      case isFalse => simp at h
  case isFalse => simp at h

theorem unstake_tokens_ok_shape {p : StakingPool} {tier : StakingTier}
    {us : UserStake} {e : Bool} {now : Int} {ok : Bool}
    {p' : StakingPool} {t' : StakingTier} {us' : UserStake} {a : Nat}
    (h : unstake_tokens p tier us e now ok = .ok (p', t', us', a)) :
    us'.is_active = false ∧ us'.start_time = us.start_time ∧
    us'.end_time = us.end_time ∧ us'.amount = us.amount ∧
    t'.apy_basis_points = tier.apy_basis_points := by
  unfold unstake_tokens at h
  repeat' (first | split at h | simp only [] at h)
  all_goals first
    | (simp only [Except.ok.injEq, Prod.mk.injEq] at h
       obtain ⟨hp, ht, hus, ha⟩ := h
       subst hp; subst ht; subst hus
       simp_all
       done)
    | (simp at h
       done)

/-- A configuration of the staking engine: the pool, the tier, one
user stake, and the clock. -/
structure StakeConfig where
  pool : StakingPool
  tier : StakingTier
  stake : UserStake
  clock : Int

/-- Initial configurations: ones just produced by stake_tokens. -/
def StakeInit (c : StakeConfig) : Prop :=
  ∃ (p₀ : StakingPool) (t₀ : StakingTier) (amount idx : Nat),
    stake_tokens p₀ t₀ c.clock amount idx true =
      .ok (c.pool, c.tier, c.stake)

/-- One step of the staking engine under a non-decreasing clock: time
passes, or a successful claim_rewards, or a successful
unstake_tokens. -/
def StakeStep (c c' : StakeConfig) : Prop :=
  (c.pool = c'.pool ∧ c.tier = c'.tier ∧ c.stake = c'.stake ∧
    c.clock ≤ c'.clock) ∨
  (∃ r : Nat, c'.clock = c.clock ∧ c'.tier = c.tier ∧
    claim_rewards c.pool c.tier c.stake c.clock true =
      .ok (c'.pool, c'.stake, r)) ∨
  (∃ (e : Bool) (a : Nat), c'.clock = c.clock ∧
    unstake_tokens c.pool c.tier c.stake e c.clock true =
      .ok (c'.pool, c'.tier, c'.stake, a))

/-- Reachable configurations of the staking engine: a freshly created
stake followed by any number of clock advances, claims and unstakes. -/
def StakeReach (c : StakeConfig) : Prop :=
  ∃ c₀ : StakeConfig, StakeInit c₀ ∧ Relation.ReflTransGen StakeStep c₀ c

theorem gross_accrued_mono (us : UserStake) (t : StakingTier)
    {now now' : Int} (h : now ≤ now') :
    gross_accrued us t now ≤ gross_accrued us t now' := by
  unfold gross_accrued
  apply Nat.div_le_div_right
  apply Nat.mul_le_mul_left
  apply Int.toNat_le_toNat
  have h2 : min now us.end_time ≤ min now' us.end_time :=
    min_le_min h le_rfl
  omega

theorem gross_bound_aux (us : UserStake) (t : StakingTier) (now : Int)
    (hb : us.amount * t.apy_basis_points *
      (us.end_time - us.start_time).toNat < U64 * (10000 * 31536000)) :
    us.amount * t.apy_basis_points *
      (min now us.end_time - us.start_time).toNat < U128 ∧
    gross_accrued us t now < U64 := by
  have hm : (min now us.end_time - us.start_time).toNat ≤
      (us.end_time - us.start_time).toNat := by
    apply Int.toNat_le_toNat
    have := min_le_right now us.end_time
    omega
  have hprod : us.amount * t.apy_basis_points *
      (min now us.end_time - us.start_time).toNat ≤
      us.amount * t.apy_basis_points *
        (us.end_time - us.start_time).toNat :=
    Nat.mul_le_mul_left _ hm
  constructor
  · calc us.amount * t.apy_basis_points *
        (min now us.end_time - us.start_time).toNat
        ≤ us.amount * t.apy_basis_points *
            (us.end_time - us.start_time).toNat := hprod
      _ < U64 * (10000 * 31536000) := hb
      _ < U128 := by norm_num [U64, U128]
  · unfold gross_accrued
    apply Nat.div_lt_of_lt_mul
    calc us.amount * t.apy_basis_points *
        (min now us.end_time - us.start_time).toNat
        ≤ us.amount * t.apy_basis_points *
            (us.end_time - us.start_time).toNat := hprod
      _ < U64 * (10000 * 31536000) := hb
      _ = (10000 * 31536000) * U64 := Nat.mul_comm _ _

/-- The per-configuration invariant: on an active stake the clock is
past `start_time`, the stake term is well-formed, and (whenever the
whole-term reward product stays below `2^64 * (10000 * 31536000)`) the
claimed rewards never exceed the gross accrued so far. -/
def stake_inv (c : StakeConfig) : Prop :=
  c.stake.is_active = true →
  c.stake.start_time ≤ c.clock ∧
  c.stake.start_time ≤ c.stake.end_time ∧
  c.stake.end_time - c.stake.start_time ≤ I64_MAX ∧
  (c.stake.amount * c.tier.apy_basis_points *
      (c.stake.end_time - c.stake.start_time).toNat <
        U64 * (10000 * 31536000) →
    c.stake.rewards_claimed ≤ gross_accrued c.stake c.tier c.clock)

theorem stake_inv_init {c : StakeConfig} (h : StakeInit c) :
    stake_inv c := by
  obtain ⟨p₀, t₀, amount, idx, h⟩ := h
  obtain ⟨hst, hen, hdur, hrc, hact, hamt, hapy⟩ :=
    stake_tokens_ok_shape h
  intro _
  refine ⟨le_of_eq hst, ?_, ?_, ?_⟩
  · rw [hst, hen]
    exact le_add_of_nonneg_right (by positivity)
  · rw [hst, hen]
    simpa using hdur
  · intro _
    rw [hrc]
    exact Nat.zero_le _

theorem stake_inv_step {c c' : StakeConfig} (hs : StakeStep c c')
    (hi : stake_inv c) : stake_inv c' := by
  rcases hs with ⟨hp, ht, hus, hcl⟩ | ⟨r, hcl, ht, hc⟩ |
    ⟨e, a, hcl, hu⟩
  · intro hact
    rw [← hp, ← ht, ← hus] at *
    obtain ⟨h1, h2, h3, h4⟩ := hi hact
    exact ⟨h1.trans hcl, h2, h3,
      fun hb => (h4 hb).trans (gross_accrued_mono _ _ hcl)⟩
  · intro _
    obtain ⟨hact0, hcr, hpos, hus'⟩ := claim_rewards_ok_shape hc
    obtain ⟨h1, h2, h3, h4⟩ := hi hact0
    rw [hcl, ht, hus']
    refine ⟨h1, h2, h3, ?_⟩
    intro hb
    have hb0 : c.stake.amount * c.tier.apy_basis_points *
        (c.stake.end_time - c.stake.start_time).toNat <
          U64 * (10000 * 31536000) := hb
    have hcl0 := h4 hb0
    obtain ⟨hfit, hgr⟩ := gross_bound_aux c.stake c.tier c.clock hb0
    have hcast : u128CastU64 (gross_accrued c.stake c.tier c.clock) =
        gross_accrued c.stake c.tier c.clock := by
      unfold u128CastU64
      exact Nat.mod_eq_of_lt hgr
    have heq := calculate_rewards_eq c.stake c.tier c.clock h2 h1 h3
      hfit (by rw [hcast]; exact hcl0)
    rw [heq] at hcr
    have hrval : u128CastU64 (gross_accrued c.stake c.tier c.clock) -
        c.stake.rewards_claimed = r := by
      simpa using hcr
    show c.stake.rewards_claimed + r ≤
      gross_accrued c.stake c.tier c.clock
    rw [hcast] at hrval
    omega
  · intro hact'
    have hfalse := (unstake_tokens_ok_shape hu).1
    simp [hact'] at hfalse

theorem stake_reach_inv {c : StakeConfig} (hr : StakeReach c) :
    stake_inv c := by
  obtain ⟨c₀, hinit, hrtg⟩ := hr
  induction hrtg with
  | refl => exact stake_inv_init hinit
  | tail _ hstep ih => exact stake_inv_step hstep ih

/-- C9, amended: provided the clock is non-decreasing across calls AND
the whole-term reward product stays below `2^64 * (10000 * 31536000)`
(so the truncating `as u64` cast never wraps), in every reachable
configuration with an active stake `rewards_claimed` never exceeds the
gross accrued reward at the current time, so calculate_rewards
succeeds and its subtraction never underflows. -/
theorem C9_amended (c : StakeConfig) (hr : StakeReach c)
    (hb : c.stake.amount * c.tier.apy_basis_points *
      (c.stake.end_time - c.stake.start_time).toNat <
        U64 * (10000 * 31536000))
    (hact : c.stake.is_active = true) :
    c.stake.rewards_claimed ≤ gross_accrued c.stake c.tier c.clock ∧
    calculate_rewards c.stake c.tier c.clock =
      .ok (gross_accrued c.stake c.tier c.clock -
        c.stake.rewards_claimed) := by
  obtain ⟨h1, h2, h3, h4⟩ := stake_reach_inv hr hact
  have hcl := h4 hb
  obtain ⟨hfit, hgr⟩ := gross_bound_aux c.stake c.tier c.clock hb
  have hcast : u128CastU64 (gross_accrued c.stake c.tier c.clock) =
      gross_accrued c.stake c.tier c.clock := by
    unfold u128CastU64
    exact Nat.mod_eq_of_lt hgr
  have heq := calculate_rewards_eq c.stake c.tier c.clock h2 h1 h3
    hfit (by rw [hcast]; exact hcl)
  rw [heq, hcast]
  exact ⟨hcl, rfl⟩

/-- C9, witness for the amended theorem: stake 1000 tokens at 10% APY
for 365 days at time 0, let the clock advance to the end of the term,
and the claimable reward is exactly 100. -/
theorem C9_amended_witness :
    calculate_rewards
      { amount := 1000, start_time := 0, end_time := 31536000,
        rewards_claimed := 0, is_active := true }
      { duration_days := 365, apy_basis_points := 1000,
        total_staked := 1000, is_active := true }
      31536000 = .ok 100 :=
  (C9_amended
    { pool := { early_unstake_penalty := 1000, total_staked := 1000,
                total_rewards_distributed := 0 },
      tier := { duration_days := 365, apy_basis_points := 1000,
                total_staked := 1000, is_active := true },
      stake := { amount := 1000, start_time := 0, end_time := 31536000,
                 rewards_claimed := 0, is_active := true },
      clock := 31536000 }
    ⟨{ pool := { early_unstake_penalty := 1000, total_staked := 1000,
                 total_rewards_distributed := 0 },
       tier := { duration_days := 365, apy_basis_points := 1000,
                 total_staked := 1000, is_active := true },
       stake := { amount := 1000, start_time := 0,
                  end_time := 31536000, rewards_claimed := 0,
                  is_active := true },
       clock := 0 },
     ⟨{ early_unstake_penalty := 1000, total_staked := 0,
        total_rewards_distributed := 0 },
      { duration_days := 365, apy_basis_points := 1000,
        total_staked := 0, is_active := true },
      1000, 0, by decide⟩,
     Relation.ReflTransGen.tail Relation.ReflTransGen.refl
       (Or.inl ⟨rfl, rfl, rfl, by decide⟩)⟩
    (by decide) rfl).2

/-- C9, counterexample: the truncating `rewards as u64` cast is not
monotone in time, so the claim fails even with a non-decreasing clock.
Stake `10^19` tokens at `apy_bps = 65535` for 120 days at time 0 and
claim at `t = 8_876_000` (just before the exact gross crosses `2^64`):
`rewards_claimed` becomes the truncated gross at that time.  At
`t = 8_890_000` — still before `end_time` — the exact gross has crossed
`2^64`, the truncated gross wraps to a small value below
`rewards_claimed`, and the subtraction in calculate_rewards underflows:
the follow-up claim_rewards call in this reachable configuration aborts
(locking claims and unstakes for the rest of the term). -/
theorem C9_counterexample :
    StakeReach
      { pool := { early_unstake_penalty := 1000,
                  total_staked := 10000000000000000000,
                  total_rewards_distributed := 10000000000000000000 * 65535 * 8876000 / 315360000000 },
        tier := { duration_days := 120, apy_basis_points := 65535,
                  total_staked := 10000000000000000000,
                  is_active := true },
        stake := { amount := 10000000000000000000, start_time := 0,
                   end_time := 10368000,
                   rewards_claimed := 10000000000000000000 * 65535 * 8876000 / 315360000000,
                   is_active := true },
        clock := 8890000 } ∧
    claim_rewards
      { early_unstake_penalty := 1000,
        total_staked := 10000000000000000000,
        total_rewards_distributed :=
          10000000000000000000 * 65535 * 8876000 / 315360000000 }
      { duration_days := 120, apy_basis_points := 65535,
        total_staked := 10000000000000000000, is_active := true }
      { amount := 10000000000000000000, start_time := 0,
        end_time := 10368000,
        rewards_claimed :=
          10000000000000000000 * 65535 * 8876000 / 315360000000,
        is_active := true }
      8890000 true = .error .overflow ∧
    (8890000 : Int) ≤ 10368000 := by
  have s1 : StakeStep
      { pool := { early_unstake_penalty := 1000,
                  total_staked := 10000000000000000000,
                  total_rewards_distributed := 0 },
        tier := { duration_days := 120, apy_basis_points := 65535,
                  total_staked := 10000000000000000000,
                  is_active := true },
        stake := { amount := 10000000000000000000, start_time := 0,
                   end_time := 10368000,
                   rewards_claimed := 0,
                   is_active := true },
        clock := 0 }
      { pool := { early_unstake_penalty := 1000,
                  total_staked := 10000000000000000000,
                  total_rewards_distributed := 0 },
        tier := { duration_days := 120, apy_basis_points := 65535,
                  total_staked := 10000000000000000000,
                  is_active := true },
        stake := { amount := 10000000000000000000, start_time := 0,
                   end_time := 10368000,
                   rewards_claimed := 0,
                   is_active := true },
        clock := 8876000 } :=
    Or.inl ⟨rfl, rfl, rfl, by decide⟩
  have s2 : StakeStep
      { pool := { early_unstake_penalty := 1000,
                  total_staked := 10000000000000000000,
                  total_rewards_distributed := 0 },
        tier := { duration_days := 120, apy_basis_points := 65535,
                  total_staked := 10000000000000000000,
                  is_active := true },
        stake := { amount := 10000000000000000000, start_time := 0,
                   end_time := 10368000,
                   rewards_claimed := 0,
                   is_active := true },
        clock := 8876000 }
      { pool := { early_unstake_penalty := 1000,
                  total_staked := 10000000000000000000,
                  total_rewards_distributed := 10000000000000000000 * 65535 * 8876000 / 315360000000 },
        tier := { duration_days := 120, apy_basis_points := 65535,
                  total_staked := 10000000000000000000,
                  is_active := true },
        stake := { amount := 10000000000000000000, start_time := 0,
                   end_time := 10368000,
                   rewards_claimed := 10000000000000000000 * 65535 * 8876000 / 315360000000,
                   is_active := true },
        clock := 8876000 } :=
    Or.inr (Or.inl ⟨10000000000000000000 * 65535 * 8876000 / 315360000000, rfl, rfl, by decide⟩)
  have s3 : StakeStep
      { pool := { early_unstake_penalty := 1000,
                  total_staked := 10000000000000000000,
                  total_rewards_distributed := 10000000000000000000 * 65535 * 8876000 / 315360000000 },
        tier := { duration_days := 120, apy_basis_points := 65535,
                  total_staked := 10000000000000000000,
                  is_active := true },
        stake := { amount := 10000000000000000000, start_time := 0,
                   end_time := 10368000,
                   rewards_claimed := 10000000000000000000 * 65535 * 8876000 / 315360000000,
                   is_active := true },
        clock := 8876000 }
      { pool := { early_unstake_penalty := 1000,
                  total_staked := 10000000000000000000,
                  total_rewards_distributed := 10000000000000000000 * 65535 * 8876000 / 315360000000 },
        tier := { duration_days := 120, apy_basis_points := 65535,
                  total_staked := 10000000000000000000,
                  is_active := true },
        stake := { amount := 10000000000000000000, start_time := 0,
                   end_time := 10368000,
                   rewards_claimed := 10000000000000000000 * 65535 * 8876000 / 315360000000,
                   is_active := true },
        clock := 8890000 } :=
    Or.inl ⟨rfl, rfl, rfl, by decide⟩
  have hinit : StakeInit
      { pool := { early_unstake_penalty := 1000,
                  total_staked := 10000000000000000000,
                  total_rewards_distributed := 0 },
        tier := { duration_days := 120, apy_basis_points := 65535,
                  total_staked := 10000000000000000000,
                  is_active := true },
        stake := { amount := 10000000000000000000, start_time := 0,
                   end_time := 10368000,
                   rewards_claimed := 0,
                   is_active := true },
        clock := 0 } :=
    ⟨{ early_unstake_penalty := 1000, total_staked := 0,
       total_rewards_distributed := 0 },
     { duration_days := 120, apy_basis_points := 65535,
       total_staked := 0, is_active := true },
     10000000000000000000, 0, by decide⟩
  refine ⟨⟨_, hinit, (((Relation.ReflTransGen.refl).tail s1).tail
    s2).tail s3⟩, by decide, by decide⟩
